import Mathlib

/-!
Verification of the COS object-store provider
(`src/rust/lance-io/src/object_store/providers/cos.rs`,
`CosStoreProvider::new_store`).

The provider merges four configuration layers (environment variables,
bucket from the URL host, a root marker from the URL path, explicit
storage options), forces `disable_config_load`, validates the endpoint,
and assembles an `ObjectStore` handle.  Rust `HashMap`s are embedded as
association lists where the most recent insertion shadows older
bindings, which gives the same `get`/`contains_key` observations as
`HashMap::insert` and `collect` (later entries win).
-/

set_option maxHeartbeats 1000000

/-- A string-to-string map, modelling `HashMap<String, String>`.
The head of the list is the most recent insertion. -/
abbrev ConfigMap : Type := List (String × String)

/-- `HashMap::get`: the most recently inserted binding for the key. -/
def ConfigMap.get : ConfigMap → String → Option String
  | [], _ => none
  | (k, v) :: t, k' => if k = k' then some v else ConfigMap.get t k'

/-- `HashMap::contains_key`. -/
def ConfigMap.contains_key : ConfigMap → String → Bool
  | [], _ => false
  | (k, _) :: t, k' => if k = k' then true else ConfigMap.contains_key t k'

/-- `HashMap::insert`: the new binding shadows any older one. -/
def ConfigMap.insert (m : ConfigMap) (k v : String) : ConfigMap :=
  (k, v) :: m

/-- The `url::Url` fields `new_store` reads: `host_str()` (which is
`none` when the URL has no host) and `path()`. -/
structure Url where
  host : Option String
  path : String

/-- Modelled from the spec: the options structure of §6
(`ObjectStoreParams` lives outside `src/`); it carries
`block_size: optional integer`, `storage_options: optional
mapping<string,string>`, `use_constant_size_upload_parts: bool`,
`list_is_lexically_ordered: optional bool`. -/
structure ObjectStoreParams where
  block_size : Option Nat
  storage_options : Option ConfigMap
  use_constant_size_upload_parts : Bool
  list_is_lexically_ordered : Option Bool

/-- `lance_core::error::Error` as `new_store` uses it: every failure is
`Error::invalid_input(message, location)`; the source location is
dropped. -/
inductive LanceError where
  | invalidInput (msg : String) : LanceError
deriving DecidableEq

/-- The handle fields assigned by `new_store` (the struct itself lives
outside `src/`; the external transport operator `inner` and the
`io_tracker` sink are omitted as opaque collaborator values). -/
structure ObjectStore where
  scheme : String
  block_size : Nat
  max_iop_size : Nat
  use_constant_size_upload_parts : Bool
  list_is_lexically_ordered : Bool
  io_parallelism : Nat
  download_retry_count : Nat
  store_pfx : String
deriving DecidableEq

/-- Modelled from the spec: everything `new_store` calls that is outside
`src/` — the transport factory `Operator::from_iter::<Cos>` (an external
collaborator whose success or diagnostic is its own), the repository's
`calculate_object_store_prefix`, the `StorageOptions::download_retry_count`
dedicated accessor, and the `DEFAULT_CLOUD_BLOCK_SIZE`,
`DEFAULT_CLOUD_IO_PARALLELISM`, `DEFAULT_MAX_IOP_SIZE` constants.
They enter the model as parameters. -/
structure Deps where
  opFromIter : ConfigMap → Except String Unit
  calcPfx : Url → Option ConfigMap → Except LanceError String
  downloadRetryCount : ConfigMap → Nat
  defaultCloudBlockSize : Nat
  defaultCloudIoParallelism : Nat
  defaultMaxIopSize : Nat

/-- `k.starts_with("COS_") || k.starts_with("TENCENTCLOUD_")` — the
filter on environment-variable names (line 36). -/
def recognizedName (k : String) : Bool :=
  List.isPrefixOf ("COS_".data) k.data || List.isPrefixOf ("TENCENTCLOUD_".data) k.data

/-- Rust `str::replace("cos_", "")`: remove every non-overlapping
occurrence of `cos_`, scanning left to right. -/
def stripCosAll : List Char → List Char
  | 'c' :: 'o' :: 's' :: '_' :: rest => stripCosAll rest
  | c :: rest => c :: stripCosAll rest
  | [] => []

/-- Rust `str::replace("tencentcloud_", "")`: remove every
non-overlapping occurrence of `tencentcloud_`, scanning left to right. -/
def stripTencentAll : List Char → List Char
  | 't' :: 'e' :: 'n' :: 'c' :: 'e' :: 'n' :: 't' :: 'c' :: 'l' :: 'o' :: 'u' :: 'd' :: '_' :: rest =>
      stripTencentAll rest
  | c :: rest => c :: stripTencentAll rest
  | [] => []

/-- Lines 39-44: `k.to_lowercase().replace("cos_", "").replace("tencentcloud_", "")`. -/
def envKey (k : String) : String :=
  String.mk (stripTencentAll (stripCosAll (k.data.map Char.toLower)))

/-- The recognized environment entries with their derived keys, in
iteration order of the environment snapshot (lines 35-45 before the
`collect`). -/
def envEntries (env : List (String × String)) : ConfigMap :=
  (env.filter (fun p => recognizedName p.1)).map (fun p => (envKey p.1, p.2))

/-- Lines 35-45: `.collect::<HashMap<_, _>>()` — insert the derived
entries in iteration order; a later entry overwrites an earlier one with
the same derived key. -/
def envConfig (env : List (String × String)) : ConfigMap :=
  (envEntries env).foldl (fun m p => ConfigMap.insert m p.1 p.2) []

/-- Rust `trim_start_matches('/')`: drop every leading separator
(line 33). -/
def trimLeadingSlashes (s : String) : String :=
  String.mk (s.data.dropWhile (fun c => c = '/'))

/-- Rust `str::ends_with('/')` (line 96). -/
def endsWithSlash (s : String) : Bool :=
  match s.data.getLast? with
  | some c => c = '/'
  | none => false

/-- Lines 95-98: rewrite the URL so its path ends with `/`. -/
def normalizeUrl (u : Url) : Url :=
  if endsWithSlash u.path then u else { u with path := u.path ++ "/" }

/-- Error message of line 29. -/
def missingBucketMsg : String := "COS URL must contain bucket name"

/-- Error message of lines 78-81. -/
def endpointRequiredMsg : String :=
  "COS endpoint is required. Please provide 'cos_endpoint' in storage options or set COS_ENDPOINT environment variable"

/-- Prefix of the operator-construction error message (lines 86-89). -/
def opErrPre : String := "Failed to create COS operator: "

/-- Lines 35-75: the Configuration Map after all merge layers —
environment-derived entries, `bucket`, the conditional `root` marker,
the four recognized storage-option overrides, and the forced
`disable_config_load` entry. -/
def resolveConfig (env : List (String × String)) (bucket pfx : String)
    (opts : ConfigMap) : ConfigMap :=
  let m := envConfig env
  let m := ConfigMap.insert m "bucket" bucket
  let m := if pfx = "" then m else ConfigMap.insert m "root" "/"
  let m := match ConfigMap.get opts "cos_endpoint" with
    | some endpoint => ConfigMap.insert m "endpoint" endpoint
    | none => m
  let m := match ConfigMap.get opts "cos_secret_id" with
    | some secret_id => ConfigMap.insert m "secret_id" secret_id
    | none => m
  let m := match ConfigMap.get opts "cos_secret_key" with
    | some secret_key => ConfigMap.insert m "secret_key" secret_key
    | none => m
  let m := match ConfigMap.get opts "cos_enable_versioning" with
    | some enable_versioning => ConfigMap.insert m "enable_versioning" enable_versioning
    | none => m
  ConfigMap.insert m "disable_config_load" "false"

/-- `CosStoreProvider::new_store` (lines 23-112), with the external
collaborators supplied through `deps` and the environment snapshot
through `env`. -/
def new_store (deps : Deps) (env : List (String × String)) (base_path : Url)
    (params : ObjectStoreParams) : Except LanceError ObjectStore :=
  let block_size := params.block_size.getD deps.defaultCloudBlockSize
  let storage_options := params.storage_options.getD []
  match base_path.host with
  | none => Except.error (LanceError.invalidInput missingBucketMsg)
  | some bucket =>
    let pfx := trimLeadingSlashes base_path.path
    let config_map := resolveConfig env bucket pfx storage_options
    if !(ConfigMap.contains_key config_map "endpoint") then
      Except.error (LanceError.invalidInput endpointRequiredMsg)
    else
      match deps.opFromIter config_map with
      | Except.error e => Except.error (LanceError.invalidInput (opErrPre ++ e))
      | Except.ok _ =>
        let url := normalizeUrl base_path
        match deps.calcPfx url params.storage_options with
        | Except.error e => Except.error e
        | Except.ok sp =>
          Except.ok {
            scheme := "cos"
            block_size := block_size
            max_iop_size := deps.defaultMaxIopSize
            use_constant_size_upload_parts := params.use_constant_size_upload_parts
            list_is_lexically_ordered := params.list_is_lexically_ordered.getD true
            io_parallelism := deps.defaultCloudIoParallelism
            download_retry_count := deps.downloadRetryCount storage_options
            store_pfx := sp }

/-- The message of a failed build, `none` on success. -/
def errMsg? : Except LanceError ObjectStore → Option String
  | Except.error (LanceError.invalidInput m) => some m
  | Except.ok _ => none

/-- Whether `pat` occurs as a contiguous substring. -/
def occursIn (pat : List Char) : List Char → Bool
  | [] => pat.isEmpty
  | c :: rest => List.isPrefixOf pat (c :: rest) || occursIn pat rest

/-- A trivial instantiation of the external collaborators, for running
the model on concrete inputs. -/
def deps0 : Deps :=
  { opFromIter := fun _ => Except.ok ()
    calcPfx := fun _ _ => Except.ok ""
    downloadRetryCount := fun _ => 3
    defaultCloudBlockSize := 65536
    defaultCloudIoParallelism := 64
    defaultMaxIopSize := 16777216 }

/-- The location of the spec's scenario: `cos://my-bucket/path/to/file`. -/
def url6 : Url := { host := some "my-bucket", path := "/path/to/file" }

/-- Options supplying an endpoint through `storage_options`. -/
def params6 : ObjectStoreParams :=
  { block_size := none
    storage_options := some [("cos_endpoint", "https://x.example")]
    use_constant_size_upload_parts := false
    list_is_lexically_ordered := none }

/-- Fully defaulted options: nothing supplied. -/
def paramsEmpty : ObjectStoreParams :=
  { block_size := none
    storage_options := none
    use_constant_size_upload_parts := false
    list_is_lexically_ordered := none }

/-- The handle `new_store deps0 [] url6 params6` produces. -/
def store6 : ObjectStore :=
  { scheme := "cos"
    block_size := 65536
    max_iop_size := 16777216
    use_constant_size_upload_parts := false
    list_is_lexically_ordered := true
    io_parallelism := 64
    download_retry_count := 3
    store_pfx := "" }

example : new_store deps0 [] url6 params6 = Except.ok store6 := rfl

/-! ### Map lemmas -/

theorem ConfigMap.get_insert (m : ConfigMap) (k v k' : String) :
    ConfigMap.get (ConfigMap.insert m k v) k' = if k = k' then some v else ConfigMap.get m k' :=
  rfl

theorem ConfigMap.get_insert_self (m : ConfigMap) (k v : String) :
    ConfigMap.get (ConfigMap.insert m k v) k = some v := by
  rw [ConfigMap.get_insert, if_pos rfl]

theorem ConfigMap.get_insert_ne (m : ConfigMap) (k v k' : String) (h : ¬ k = k') :
    ConfigMap.get (ConfigMap.insert m k v) k' = ConfigMap.get m k' := by
  rw [ConfigMap.get_insert, if_neg h]

theorem ConfigMap.contains_key_insert (m : ConfigMap) (k v k' : String) :
    ConfigMap.contains_key (ConfigMap.insert m k v) k' =
      if k = k' then true else ConfigMap.contains_key m k' :=
  rfl

theorem ConfigMap.contains_key_eq_isSome (m : ConfigMap) (k : String) :
    ConfigMap.contains_key m k = (ConfigMap.get m k).isSome := by
  induction m with
  | nil => rfl
  | cons hd t ih =>
    obtain ⟨a, b⟩ := hd
    by_cases h : a = k
    · simp [ConfigMap.contains_key, ConfigMap.get, h]
    · simp [ConfigMap.contains_key, ConfigMap.get, h, ih]

example : ConfigMap.get (resolveConfig [] "b" "" [("cos_endpoint", "e")]) "endpoint" = some "e" := rfl

example : envKey "COS_ENDPOINT" = "endpoint" := rfl

/-- C5: for every environment, bucket, trimmed path and option set, the
final Configuration Map — the map `new_store` hands to the transport
factory — maps `disable_config_load` to `"false"`: the forced insertion
on line 75 happens after every other merge layer, so no environment
variable or caller option can set it otherwise. -/
theorem cos_disable_config_load_forced (env : List (String × String))
    (bucket pfx : String) (opts : ConfigMap) :
    ConfigMap.get (resolveConfig env bucket pfx opts) "disable_config_load" = some "false" :=
  rfl

/-- C4: for every location with a present, non-empty host, every
environment and every option set, the final Configuration Map contains a
`bucket` key whose value is the location's host string — the insertion
on line 47 overrides any environment-derived `bucket` entry, and no
later layer touches the key. -/
theorem cos_bucket_key (env : List (String × String)) (u : Url)
    (bucket : String) (opts : ConfigMap) (hhost : u.host = some bucket)
    (hb : bucket ≠ "") :
    ConfigMap.get (resolveConfig env bucket (trimLeadingSlashes u.path) opts) "bucket" =
      some bucket := by
  unfold resolveConfig
  cases h1 : ConfigMap.get opts "cos_endpoint" <;>
  cases h2 : ConfigMap.get opts "cos_secret_id" <;>
  cases h3 : ConfigMap.get opts "cos_secret_key" <;>
  cases h4 : ConfigMap.get opts "cos_enable_versioning" <;>
  by_cases hp : trimLeadingSlashes u.path = "" <;>
  simp [hp, ConfigMap.get_insert_ne, ConfigMap.get_insert_self, ConfigMap.get_insert]

/-- The option keys `new_store` recognizes (lines 54-68), paired with
the configuration key each one sets. -/
def recognizedOptPairs : List (String × String) :=
  [("cos_endpoint", "endpoint"), ("cos_secret_id", "secret_id"),
   ("cos_secret_key", "secret_key"), ("cos_enable_versioning", "enable_versioning")]

/-- C2: for any key set both by an environment-derived entry and by an
explicit caller storage option (the recognized option keys are the only
ones the code maps into the configuration), the value in the final
Configuration Map is the explicit-option value, for every environment
and option map: the option overrides of lines 54-68 run after the
environment merge of lines 35-45. -/
theorem cos_option_overrides_env (env : List (String × String))
    (bucket pfx : String) (opts : ConfigMap) (ok ck v : String)
    (hmem : (ok, ck) ∈ recognizedOptPairs)
    (henv : ConfigMap.contains_key (envConfig env) ck = true)
    (hopt : ConfigMap.get opts ok = some v) :
    ConfigMap.get (resolveConfig env bucket pfx opts) ck = some v := by
  unfold resolveConfig
  simp only [recognizedOptPairs, List.mem_cons, List.mem_singleton, Prod.mk.injEq,
    List.not_mem_nil, or_false] at hmem
  rcases hmem with ⟨rfl, rfl⟩ | ⟨rfl, rfl⟩ | ⟨rfl, rfl⟩ | ⟨rfl, rfl⟩ <;>
  rw [hopt] <;>
  cases h1 : ConfigMap.get opts "cos_endpoint" <;>
  cases h2 : ConfigMap.get opts "cos_secret_id" <;>
  cases h3 : ConfigMap.get opts "cos_secret_key" <;>
  cases h4 : ConfigMap.get opts "cos_enable_versioning" <;>
  simp_all [ConfigMap.get_insert_ne, ConfigMap.get_insert_self, ConfigMap.get_insert]

/-- C3 counterexample: the claim says that for every location whose
trimmed path is empty the final Configuration Map contains no `root`
key, for every environment.  It is false: the environment merge of
lines 35-45 derives the key `root` from the variable `COS_ROOT`, and the
provider never removes it — here the trimmed path is empty yet the map
contains `root`. -/
theorem cos_root_key_counterexample :
    trimLeadingSlashes "" = "" ∧
    ConfigMap.contains_key (resolveConfig [("COS_ROOT", "marker")] "b" "" []) "root" = true :=
  ⟨rfl, rfl⟩

/-- C3 amended: the provider itself inserts a `root` key (value `"/"`,
line 50) exactly when the trimmed path is non-empty; when the trimmed
path is empty it inserts none, so the final map contains `root` exactly
when the environment-derived entries already contain it. -/
theorem cos_root_key_amended (env : List (String × String))
    (bucket pfx : String) (opts : ConfigMap) :
    (pfx = "" →
      ConfigMap.contains_key (resolveConfig env bucket pfx opts) "root" =
        ConfigMap.contains_key (envConfig env) "root") ∧
    (pfx ≠ "" →
      ConfigMap.get (resolveConfig env bucket pfx opts) "root" = some "/") := by
  constructor <;> intro hp <;>
  unfold resolveConfig <;>
  cases h1 : ConfigMap.get opts "cos_endpoint" <;>
  cases h2 : ConfigMap.get opts "cos_secret_id" <;>
  cases h3 : ConfigMap.get opts "cos_secret_key" <;>
  cases h4 : ConfigMap.get opts "cos_enable_versioning" <;>
  simp [hp, ConfigMap.get_insert_ne, ConfigMap.get_insert_self, ConfigMap.get_insert,
    ConfigMap.contains_key_insert, ConfigMap.contains_key_eq_isSome]

/-- Only the environment layer and the `cos_endpoint` option can put an
`endpoint` key into the final Configuration Map. -/
theorem contains_endpoint_resolve (env : List (String × String))
    (bucket pfx : String) (opts : ConfigMap) :
    ConfigMap.contains_key (resolveConfig env bucket pfx opts) "endpoint" =
      (ConfigMap.contains_key (envConfig env) "endpoint" ||
        (ConfigMap.get opts "cos_endpoint").isSome) := by
  unfold resolveConfig
  cases h1 : ConfigMap.get opts "cos_endpoint" <;>
  cases h2 : ConfigMap.get opts "cos_secret_id" <;>
  cases h3 : ConfigMap.get opts "cos_secret_key" <;>
  cases h4 : ConfigMap.get opts "cos_enable_versioning" <;>
  by_cases hp : pfx = "" <;>
  simp [hp, ConfigMap.contains_key_insert, ConfigMap.contains_key_eq_isSome,
    ConfigMap.get_insert_ne, ConfigMap.get_insert_self, ConfigMap.get_insert]

/-! ### The environment layer (claim C7) -/

/-- The value of the last entry of the list bound to a key, if any. -/
def lastMatch : ConfigMap → String → Option String
  | [], _ => none
  | (k, v) :: t, k' =>
    match lastMatch t k' with
    | some w => some w
    | none => if k = k' then some v else none

theorem get_foldl_insert (l : ConfigMap) (m : ConfigMap) (k : String) :
    ConfigMap.get (l.foldl (fun acc p => ConfigMap.insert acc p.1 p.2) m) k =
      match lastMatch l k with
      | some w => some w
      | none => ConfigMap.get m k := by
  induction l generalizing m with
  | nil => rfl
  | cons hd t ih =>
    obtain ⟨a, b⟩ := hd
    simp only [List.foldl_cons]
    rw [ih]
    cases hlm : lastMatch t k with
    | some w => simp [lastMatch, hlm]
    | none =>
      by_cases hak : a = k <;>
      simp [lastMatch, hlm, hak, ConfigMap.get_insert_self, ConfigMap.get_insert_ne]

theorem lastMatch_some_mem (l : ConfigMap) (k w : String)
    (h : lastMatch l k = some w) : (k, w) ∈ l := by
  induction l with
  | nil => simp [lastMatch] at h
  | cons hd t ih =>
    obtain ⟨a, b⟩ := hd
    simp only [lastMatch] at h
    cases hlm : lastMatch t k with
    | some w' =>
      rw [hlm] at h
      exact List.mem_cons_of_mem _ (ih (hlm.trans h))
    | none =>
      rw [hlm] at h
      by_cases hak : a = k
      · rw [if_pos hak] at h
        obtain ⟨rfl⟩ := h
        subst hak
        exact List.mem_cons_self _ _
      · rw [if_neg hak] at h
        exact absurd h (by simp)

/-- Modelled from the spec: the key transform the claim describes —
match a recognized prefix, strip that leading prefix, lowercase the
remainder, leave the remainder otherwise unaltered. -/
def claimKey (k : String) : String :=
  if List.isPrefixOf ("COS_".data) k.data then
    String.mk ((k.data.drop 4).map Char.toLower)
  else if List.isPrefixOf ("TENCENTCLOUD_".data) k.data then
    String.mk ((k.data.drop 13).map Char.toLower)
  else k

/-- C7 counterexample: the claim says the derived key is the variable
name with the recognized prefix stripped and the remainder lowercased
but otherwise unaltered.  The code instead lowercases the whole name and
removes every occurrence of `cos_` and of `tencentcloud_` (lines 39-44):
for the variable `COS_A_COS_B`, the claim's transform yields `a_cos_b`,
but the derived key in the map is `a_b`. -/
theorem cos_env_key_counterexample :
    claimKey "COS_A_COS_B" = "a_cos_b" ∧
    envKey "COS_A_COS_B" = "a_b" ∧
    ConfigMap.contains_key (envConfig [("COS_A_COS_B", "v")]) "a_cos_b" = false ∧
    ConfigMap.get (envConfig [("COS_A_COS_B", "v")]) "a_b" = some "v" :=
  ⟨rfl, rfl, rfl, rfl⟩

/-- C7 amended: each environment-derived entry comes from a variable
whose name starts with `COS_` or `TENCENTCLOUD_`; its key is the whole
name lowercased with every occurrence of `cos_` and of `tencentcloud_`
removed (not merely the leading prefix stripped), its value is assigned
verbatim, and on duplicate derived keys the last variable in iteration
order wins. -/
theorem cos_env_derivation_amended (env : List (String × String)) (k : String) :
    ConfigMap.get (envConfig env) k = lastMatch (envEntries env) k ∧
    (ConfigMap.contains_key (envConfig env) k = true →
      ∃ n v, (n, v) ∈ env ∧ recognizedName n = true ∧ envKey n = k) := by
  have hget : ConfigMap.get (envConfig env) k = lastMatch (envEntries env) k := by
    unfold envConfig
    rw [get_foldl_insert]
    cases hlm : lastMatch (envEntries env) k <;> simp [ConfigMap.get]
  refine ⟨hget, fun hc => ?_⟩
  rw [ConfigMap.contains_key_eq_isSome, hget] at hc
  cases hlm : lastMatch (envEntries env) k with
  | none => rw [hlm] at hc; simp at hc
  | some w =>
    have hmem := lastMatch_some_mem _ _ _ hlm
    unfold envEntries at hmem
    obtain ⟨p, hpf, hpe⟩ := List.mem_map.mp hmem
    obtain ⟨hpenv, hprec⟩ := List.mem_filter.mp hpf
    refine ⟨p.1, p.2, hpenv, by simpa using hprec, ?_⟩
    exact congrArg Prod.fst hpe

/-! ### Distinguishing the three error messages -/

theorem data_append (a b : String) : (a ++ b).data = a.data ++ b.data := by
  cases a
  cases b
  rfl

theorem opErrPre_append_head (e : String) :
    ((opErrPre ++ e).data).head? = some 'F' := by
  rw [data_append]
  rfl

theorem opErr_ne_endpointMsg (e : String) : ¬ (opErrPre ++ e) = endpointRequiredMsg := by
  intro h
  have h2 : ((opErrPre ++ e).data).head? = (endpointRequiredMsg.data).head? :=
    congrArg (fun s => s.data.head?) h
  rw [opErrPre_append_head] at h2
  exact absurd h2 (by decide)

theorem opErr_ne_missingBucketMsg (e : String) : ¬ (opErrPre ++ e) = missingBucketMsg := by
  intro h
  have h2 : ((opErrPre ++ e).data).head? = (missingBucketMsg.data).head? :=
    congrArg (fun s => s.data.head?) h
  rw [opErrPre_append_head] at h2
  exact absurd h2 (by decide)

/-! ### Claims about `new_store` itself -/

/-- C1: assuming a valid host, the build fails with the MissingEndpoint
error — whose message names the `cos_endpoint` option key and the
`COS_ENDPOINT` environment variable — if and only if the Configuration
Map after all four merge layers contains no `endpoint` key; whenever the
environment or the options supply an endpoint, the build does not fail
with MissingEndpoint.  (`hcp` records that the external prefix
calculation reports its own diagnostics, not this message.) -/
theorem cos_missing_endpoint_iff (deps : Deps) (env : List (String × String))
    (u : Url) (params : ObjectStoreParams) (bucket : String)
    (hcp : ∀ u' o, deps.calcPfx u' o ≠ Except.error (LanceError.invalidInput endpointRequiredMsg))
    (hhost : u.host = some bucket) :
    (errMsg? (new_store deps env u params) = some endpointRequiredMsg ↔
      ConfigMap.contains_key
        (resolveConfig env bucket (trimLeadingSlashes u.path)
          (params.storage_options.getD [])) "endpoint" = false) ∧
    ((ConfigMap.contains_key (envConfig env) "endpoint" = true ∨
        ConfigMap.get (params.storage_options.getD []) "cos_endpoint" ≠ none) →
      errMsg? (new_store deps env u params) ≠ some endpointRequiredMsg) ∧
    occursIn ("cos_endpoint".data) (endpointRequiredMsg.data) = true ∧
    occursIn ("COS_ENDPOINT".data) (endpointRequiredMsg.data) = true := by
  have hmain : errMsg? (new_store deps env u params) = some endpointRequiredMsg ↔
      ConfigMap.contains_key
        (resolveConfig env bucket (trimLeadingSlashes u.path)
          (params.storage_options.getD [])) "endpoint" = false := by
    simp only [new_store, hhost]
    by_cases hc : ConfigMap.contains_key
      (resolveConfig env bucket (trimLeadingSlashes u.path)
        (params.storage_options.getD [])) "endpoint"
    · simp only [hc, Bool.not_true, Bool.false_eq_true, if_false]
      cases ho : deps.opFromIter
          (resolveConfig env bucket (trimLeadingSlashes u.path)
            (params.storage_options.getD [])) with
      | error e =>
        simp only [errMsg?]
        constructor
        · intro h
          exact absurd (Option.some.inj h) (opErr_ne_endpointMsg e)
        · intro h
          exact absurd h (by decide)
      | ok _ =>
        cases hcpx : deps.calcPfx (normalizeUrl u) params.storage_options with
        | error er =>
          cases er with
          | invalidInput m =>
            simp only [errMsg?]
            constructor
            · intro h
              obtain rfl := Option.some.inj h
              exact absurd hcpx (hcp _ _)
            · intro h
              exact absurd h (by decide)
        | ok sp =>
          simp only [errMsg?]
          constructor
          · intro h
            exact absurd h (by simp)
          · intro h
            exact absurd h (by decide)
    · simp [hc, errMsg?]
  refine ⟨hmain, fun hsup => ?_, by decide, by decide⟩
  rw [Ne, hmain, contains_endpoint_resolve]
  rcases hsup with h | h
  · simp [h]
  · cases hov : ConfigMap.get (params.storage_options.getD []) "cos_endpoint" with
    | none => exact absurd hov h
    | some w => simp [hov]

/-- C8 counterexample: the claim says every location whose host is empty
or absent fails with MissingBucket, for every environment and option
set.  It is false for an empty-but-present host: `host_str()` returns
`Some("")` (as for `cos:///p`), the `ok_or_else` of lines 27-30 accepts
it, and with an endpoint supplied the build succeeds outright. -/
theorem cos_missing_bucket_counterexample :
    Url.host { host := some "", path := "/p" } = some "" ∧
    errMsg? (new_store deps0 [] { host := some "", path := "/p" } params6) = none :=
  ⟨rfl, rfl⟩

/-- C8 amended: the build fails with the MissingBucket error exactly
when the location has no host at all (`host_str()` returns `None`,
lines 27-30); a present but empty host is accepted silently as bucket
`""` rather than rejected.  (`hcp` records that the external prefix
calculation reports its own diagnostics, not this message.) -/
theorem cos_missing_bucket_amended (deps : Deps) (env : List (String × String))
    (u : Url) (params : ObjectStoreParams)
    (hcp : ∀ u' o, deps.calcPfx u' o ≠ Except.error (LanceError.invalidInput missingBucketMsg)) :
    errMsg? (new_store deps env u params) = some missingBucketMsg ↔ u.host = none := by
  cases hh : u.host with
  | none => simp [new_store, hh, errMsg?]
  | some bucket =>
    simp only [new_store, hh]
    constructor
    · by_cases hc : ConfigMap.contains_key
        (resolveConfig env bucket (trimLeadingSlashes u.path)
          (params.storage_options.getD [])) "endpoint"
      · simp only [hc, Bool.not_true, Bool.false_eq_true, if_false]
        cases ho : deps.opFromIter
            (resolveConfig env bucket (trimLeadingSlashes u.path)
              (params.storage_options.getD [])) with
        | error e =>
          intro h
          simp only [errMsg?] at h
          exact absurd (Option.some.inj h) (opErr_ne_missingBucketMsg e)
        | ok _ =>
          cases hcpx : deps.calcPfx (normalizeUrl u) params.storage_options with
          | error er =>
            cases er with
            | invalidInput m =>
              intro h
              simp only [errMsg?] at h
              obtain rfl := Option.some.inj h
              exact absurd hcpx (hcp _ _)
          | ok sp =>
            intro h
            simp [errMsg?] at h
      · simp only [hc, Bool.not_false, if_true, errMsg?]
        intro h
        exact absurd (Option.some.inj h) (by decide)
    · intro h
      exact absurd h (by simp)

/-- On success, `new_store` returns exactly the handle assembled on
lines 102-111: the host was present, and every field is determined by
the parameters, the collaborator defaults, and the prefix calculation on
the normalized URL. -/
theorem new_store_ok (deps : Deps) (env : List (String × String))
    (u : Url) (params : ObjectStoreParams) (s : ObjectStore)
    (h : new_store deps env u params = Except.ok s) :
    ∃ bucket sp, u.host = some bucket ∧
      deps.calcPfx (normalizeUrl u) params.storage_options = Except.ok sp ∧
      s = { scheme := "cos"
            block_size := params.block_size.getD deps.defaultCloudBlockSize
            max_iop_size := deps.defaultMaxIopSize
            use_constant_size_upload_parts := params.use_constant_size_upload_parts
            list_is_lexically_ordered := params.list_is_lexically_ordered.getD true
            io_parallelism := deps.defaultCloudIoParallelism
            download_retry_count := deps.downloadRetryCount (params.storage_options.getD [])
            store_pfx := sp } := by
  cases hh : u.host with
  | none =>
    rw [new_store] at h
    rw [hh] at h
    exact absurd h (by simp)
  | some bucket =>
    simp only [new_store, hh] at h
    by_cases hc : ConfigMap.contains_key
        (resolveConfig env bucket (trimLeadingSlashes u.path)
          (params.storage_options.getD [])) "endpoint"
    · simp only [hc, Bool.not_true, Bool.false_eq_true, if_false] at h
      cases ho : deps.opFromIter
          (resolveConfig env bucket (trimLeadingSlashes u.path)
            (params.storage_options.getD [])) with
      | error e =>
        rw [ho] at h
        exact absurd h (by simp)
      | ok x =>
        rw [ho] at h
        cases hcpx : deps.calcPfx (normalizeUrl u) params.storage_options with
        | error er =>
          rw [hcpx] at h
          exact absurd h (by simp)
        | ok sp =>
          rw [hcpx] at h
          have hs := Except.ok.inj h
          exact ⟨bucket, sp, rfl, rfl, hs.symm⟩
    · simp only [hc, Bool.not_false, if_true] at h
      exact absurd h (by simp)

theorem endsWithSlash_append (s : String) : endsWithSlash (s ++ "/") = true := by
  unfold endsWithSlash
  rw [data_append, show ("/" : String).data = ['/'] from rfl, List.getLast?_concat]
  rfl

theorem normalizeUrl_ends (u : Url) : endsWithSlash (Url.path (normalizeUrl u)) = true := by
  unfold normalizeUrl
  by_cases hw : endsWithSlash u.path
  · simp [hw]
  · simp [hw, endsWithSlash_append]

theorem normalizeUrl_idem (u : Url) : normalizeUrl (normalizeUrl u) = normalizeUrl u := by
  unfold normalizeUrl
  by_cases hw : endsWithSlash u.path <;> simp [hw, endsWithSlash_append]

/-- C6: for every build that succeeds, the normalized location URL — the
one lines 95-98 produce and from which the handle's store prefix is
derived — has a path ending with the separator `/`, and the
normalization is idempotent: normalizing an already-normalized URL
changes nothing. -/
theorem cos_normalized_path (deps : Deps) (env : List (String × String))
    (u : Url) (params : ObjectStoreParams) (s : ObjectStore)
    (h : new_store deps env u params = Except.ok s) :
    endsWithSlash (Url.path (normalizeUrl u)) = true ∧
    normalizeUrl (normalizeUrl u) = normalizeUrl u ∧
    deps.calcPfx (normalizeUrl u) params.storage_options = Except.ok s.store_pfx := by
  obtain ⟨bucket, sp, hh, hcpx, rfl⟩ := new_store_ok deps env u params s h
  exact ⟨normalizeUrl_ends u, normalizeUrl_idem u, hcpx⟩

/-- C9: for every successful build, the handle's block size is the
caller-supplied value when present and the fixed cloud default
otherwise; the I/O parallelism is the fixed cloud default regardless of
the options; the lexical-listing-order flag is the caller-supplied value
when present and `true` otherwise; and the download retry budget is the
options object's dedicated accessor applied to the storage options —
quantifying over `deps` makes it independent of the merged Configuration
Map. -/
theorem cos_tuning_fields (deps : Deps) (env : List (String × String))
    (u : Url) (params : ObjectStoreParams) (s : ObjectStore)
    (h : new_store deps env u params = Except.ok s) :
    s.block_size = params.block_size.getD deps.defaultCloudBlockSize ∧
    s.io_parallelism = deps.defaultCloudIoParallelism ∧
    s.list_is_lexically_ordered = params.list_is_lexically_ordered.getD true ∧
    s.download_retry_count = deps.downloadRetryCount (params.storage_options.getD []) := by
  obtain ⟨bucket, sp, hh, hcpx, rfl⟩ := new_store_ok deps env u params s h
  exact ⟨rfl, rfl, rfl, rfl⟩

/-- Options supplying `cos_endpoint` mapped to the empty string. -/
def params10 : ObjectStoreParams :=
  { block_size := none
    storage_options := some [("cos_endpoint", "")]
    use_constant_size_upload_parts := false
    list_is_lexically_ordered := none }

/-- C10: the endpoint validation of lines 77-82 checks only the presence
of the `endpoint` key, not its value: with a valid host and the storage
option `cos_endpoint` mapped to the empty string, the build does not
fail with MissingEndpoint — it succeeds outright under the trivial
collaborators — even though no usable endpoint was provided. -/
theorem cos_endpoint_presence_only :
    ConfigMap.get (params10.storage_options.getD []) "cos_endpoint" = some "" ∧
    errMsg? (new_store deps0 [] url6 params10) ≠ some endpointRequiredMsg ∧
    errMsg? (new_store deps0 [] url6 params10) = none :=
  ⟨rfl, by decide, rfl⟩

/-! ### Witnesses -/

theorem cos_missing_endpoint_iff_witness :
    errMsg? (new_store deps0 [] url6 paramsEmpty) = some endpointRequiredMsg :=
  (cos_missing_endpoint_iff deps0 [] url6 paramsEmpty "my-bucket"
    (by intro u' o; simp [deps0]) rfl).1.mpr rfl

theorem cos_option_overrides_env_witness :
    ConfigMap.get
      (resolveConfig [("COS_ENDPOINT", "envval")] "b" "" [("cos_endpoint", "optval")])
      "endpoint" = some "optval" :=
  cos_option_overrides_env [("COS_ENDPOINT", "envval")] "b" "" [("cos_endpoint", "optval")]
    "cos_endpoint" "endpoint" "optval" (by decide) rfl rfl

theorem cos_root_key_amended_witness :
    ConfigMap.contains_key (resolveConfig [] "b" "" []) "root" =
      ConfigMap.contains_key (envConfig []) "root" ∧
    ConfigMap.get (resolveConfig [] "b" "p" []) "root" = some "/" :=
  ⟨(cos_root_key_amended [] "b" "" []).1 rfl,
   (cos_root_key_amended [] "b" "p" []).2 (by decide)⟩

theorem cos_bucket_key_witness :
    ConfigMap.get (resolveConfig [] "my-bucket" (trimLeadingSlashes url6.path) [])
      "bucket" = some "my-bucket" :=
  cos_bucket_key [] url6 "my-bucket" [] rfl (by decide)

theorem cos_normalized_path_witness :
    endsWithSlash (Url.path (normalizeUrl url6)) = true ∧
    normalizeUrl (normalizeUrl url6) = normalizeUrl url6 ∧
    deps0.calcPfx (normalizeUrl url6) params6.storage_options = Except.ok store6.store_pfx :=
  cos_normalized_path deps0 [] url6 params6 store6 rfl

theorem cos_env_derivation_amended_witness :
    ConfigMap.get (envConfig [("COS_ENDPOINT", "x")]) "endpoint" =
      lastMatch (envEntries [("COS_ENDPOINT", "x")]) "endpoint" ∧
    (∃ n v, (n, v) ∈ [("COS_ENDPOINT", "x")] ∧ recognizedName n = true ∧
      envKey n = "endpoint") :=
  ⟨(cos_env_derivation_amended [("COS_ENDPOINT", "x")] "endpoint").1,
   (cos_env_derivation_amended [("COS_ENDPOINT", "x")] "endpoint").2 rfl⟩

theorem cos_missing_bucket_amended_witness :
    errMsg? (new_store deps0 [] { host := none, path := "/p" } paramsEmpty) =
      some missingBucketMsg :=
  (cos_missing_bucket_amended deps0 [] { host := none, path := "/p" } paramsEmpty
    (by intro u' o; simp [deps0])).mpr rfl

theorem cos_tuning_fields_witness :
    store6.block_size = params6.block_size.getD deps0.defaultCloudBlockSize ∧
    store6.io_parallelism = deps0.defaultCloudIoParallelism ∧
    store6.list_is_lexically_ordered = params6.list_is_lexically_ordered.getD true ∧
    store6.download_retry_count = deps0.downloadRetryCount (params6.storage_options.getD []) :=
  cos_tuning_fields deps0 [] url6 params6 store6 rfl
